import Mathlib

/-!
A shallow embedding of libivee (src/src/libivee.c), a minimal KVM-based
in-process hypervisor, together with theorems checking its specification.

The single source file of the repository is `src/src/libivee.c`.  Its headers
(`libivee/libivee.h`, `platform.h`, `memory.h`, `x86.h`, `kvm.h`) and their
implementations are not part of the sources given here, so the operations they
declare (the memory-map primitives, the KVM control plane, the platform
allocators) are modelled from the specification; every such definition carries
a doc comment starting with `Modelled from the spec:`.  Everything else is a
direct translation of the C code.

Machine integers: all the arithmetic performed by the translated code
(guest frame numbers below 2^18, page-table entry words below 2^64, file
sizes) stays far below any overflow boundary for the inputs the theorems
quantify over, so values are modelled as `Nat` with explicit bit operations,
and error codes as `Int` (the C functions return negative errno values).
-/

/-! ## Constants

Page-size and page-table-entry constants.  `x86.h` is not part of src/, but
these are fixed by the x86-64 architecture and by the spec (§4.2, glossary):
4 KiB pages, 512 entries per table page, PRESENT is bit 0 and RW is bit 1 of
a paging entry, NX is bit 63 of a leaf PTE.
-/

def X86_PAGE_SHIFT : Nat := 12

def X86_PAGE_SIZE : Nat := 4096

def X86_PTES_PER_PAGE : Nat := 512

def X86_PTE_PRESENT : Nat := 1

def X86_PTE_RW : Nat := 2

def X86_PTE_NX : Nat := 1 <<< 63

/-- Linux errno values, as used by the C code via `-EINVAL` etc. -/
def EINVAL : Int := 22

def ENOTSUP : Int := 95

def ENOMEM : Int := 12

def ENXIO_ERRNO : Int := 6

/-- Guest memory-layout constants, from libivee.c lines 99-105. -/
def IVEE_GUEST_MEMORY_SIZE : Nat := 0x40000000

def IVEE_GUEST_PAGES_COUNT : Nat := IVEE_GUEST_MEMORY_SIZE >>> X86_PAGE_SHIFT

def IVEE_PAGE_TABLE_SIZE : Nat := X86_PAGE_SIZE * 515

def IVEE_PML4_BASE_GPA : Nat := IVEE_GUEST_MEMORY_SIZE - IVEE_PAGE_TABLE_SIZE

def IVEE_PDPE_BASE_GPA : Nat := IVEE_PML4_BASE_GPA + X86_PAGE_SIZE

def IVEE_PDE_BASE_GPA : Nat := IVEE_PDPE_BASE_GPA + X86_PAGE_SIZE

def IVEE_PTE_BASE_GPA : Nat := IVEE_PDE_BASE_GPA + X86_PAGE_SIZE

/-! ## Memory protection and guest memory regions -/

/-- Modelled from the spec: `IVEE_READ`, `IVEE_WRITE`, `IVEE_EXEC` are declared
in `libivee/libivee.h`, which is not in src/.  The C code only ever tests
individual bits of a region's `prot` mask, so the mask is modelled as a
record of three booleans (§3: `prot` is a subset of {READ, WRITE, EXEC}). -/
structure IveeProt where
  read : Bool
  write : Bool
  exec : Bool
deriving DecidableEq, Repr

/-- Modelled from the spec (§3): a guest memory region.  `struct
ivee_guest_memory_region` is declared in `memory.h`, which is not in src/.
The host virtual address of the backing mapping is not modelled;
`fileBacked` records the `backing` attribute (anonymous or file-backed). -/
structure Region where
  first_gfn : Nat
  last_gfn : Nat
  prot : IveeProt
  fileBacked : Bool
deriving DecidableEq, Repr

/-- Two regions overlap when their inclusive gfn ranges intersect. -/
def regionsOverlap (a b : Region) : Bool :=
  a.first_gfn ≤ b.last_gfn && b.first_gfn ≤ a.last_gfn

/-- Insert a region into the list sorted by `first_gfn` (spec §3: regions are
stored in ascending `first_gfn`). -/
def insertSorted (mr : Region) : List Region → List Region
  | [] => [mr]
  | r :: rs =>
    if mr.first_gfn ≤ r.first_gfn then mr :: r :: rs else r :: insertSorted mr rs

/-- Modelled from the spec (§4.1): `ivee_map_host_memory` lives in the memory
map implementation, which is not in src/.  Per the spec it rounds `size` up to
a page, validates that `gpa` is page-aligned and that the new range does not
overlap any existing region, obtains a host mapping and inserts the region in
sorted position; per the §3 invariant the total guest physical span stays
within 1 GiB.  Failure (misalignment, overlap, allocation failure) is a NULL
return in C, modelled as `none`.  Returns the new region and the new map. -/
def ivee_map_host_memory (map : List Region) (gpa size : Nat) (fileBacked : Bool)
    (prot : IveeProt) : Option (Region × List Region) :=
  if gpa % X86_PAGE_SIZE ≠ 0 then none
  else if size = 0 then none
  else
    let npages := (size + X86_PAGE_SIZE - 1) / X86_PAGE_SIZE
    let mr : Region :=
      { first_gfn := gpa / X86_PAGE_SIZE
        last_gfn := gpa / X86_PAGE_SIZE + npages - 1
        prot := prot
        fileBacked := fileBacked }
    if IVEE_GUEST_PAGES_COUNT ≤ mr.last_gfn then none
    else if map.any (fun r => regionsOverlap mr r) then none
    else some (mr, insertSorted mr map)

/-- Modelled from the spec (§4.1): `free()` releases every region's host
mapping and empties the list. -/
def ivee_free_memory_map (_ : List Region) : List Region := []

/-! ## The guest page-table builder (libivee.c lines 115-162) -/

/-- The flat index into the 512 consecutive PT pages that
`init_guest_page_table` writes for frame `gfn`:
`((gfn >> 9) & 0x1FF) * 512 + (gfn & 0x1FF)` (libivee.c lines 153-154). -/
def pteIndex (gfn : Nat) : Nat :=
  ((gfn >>> 9) &&& 0x1FF) * X86_PTES_PER_PAGE + (gfn &&& 0x1FF)

/-- The leaf PTE value written for frame `gfn` of a region with protection
`prot` (libivee.c lines 154-157). -/
def ptePresentValue (prot : IveeProt) (gfn : Nat) : Nat :=
  (gfn <<< X86_PAGE_SHIFT) |||
    (if prot.write then X86_PTE_RW else 0) |||
    (if prot.exec then 0 else X86_PTE_NX) |||
    X86_PTE_PRESENT

/-- The inner loop of `init_guest_page_table` (libivee.c lines 152-158): for
each frame of region `mr`, write its leaf PTE into the flat PT array. -/
def writeRegionPtes (pt : Nat → Nat) (mr : Region) : Nat → Nat :=
  (List.range (mr.last_gfn + 1 - mr.first_gfn)).foldl
    (fun acc k =>
      Function.update acc (pteIndex (mr.first_gfn + k))
        (ptePresentValue mr.prot (mr.first_gfn + k)))
    pt

/-- The contents of the 515-page page-table region: the PML4 page, the PDPT
page, the PD page (each an array of 64-bit entries, index) and the flat array
of 512·512 leaf PTEs. -/
structure GuestPageTable where
  pml4e : Nat → Nat
  pdpte : Nat → Nat
  pde : Nat → Nat
  pte : Nat → Nat

/-- The page-table contents `init_guest_page_table` materializes for a final
memory map (libivee.c lines 130-159).  The backing host pages are anonymous
and therefore zero-filled; entry 0 of the PML4 and PDPT pages and all 512 PD
entries are then written, the PT pages are memset to zero, and finally each
region of the map gets its leaf PTEs. -/
def buildGuestPageTable (regions : List Region) : GuestPageTable :=
  { pml4e := Function.update (fun _ => 0) 0 (IVEE_PDPE_BASE_GPA ||| X86_PTE_PRESENT)
    pdpte := Function.update (fun _ => 0) 0 (IVEE_PDE_BASE_GPA ||| X86_PTE_PRESENT)
    pde := (List.range X86_PTES_PER_PAGE).foldl
      (fun acc i =>
        Function.update acc i
          ((IVEE_PTE_BASE_GPA + X86_PAGE_SIZE * i) ||| X86_PTE_PRESENT ||| X86_PTE_RW))
      (fun _ => 0)
    pte := regions.foldl writeRegionPtes (fun _ => 0) }

/-- Function `init_guest_page_table` (libivee.c lines 115-162): map the 515-page
page-table region at `IVEE_PML4_BASE_GPA` as an anonymous READ|WRITE region
(making it part of the memory map itself), then build the paging hierarchy
from the resulting map.  Returns the page-table region, the new memory map
and the page-table contents, or `none` when the mapping fails (the C code
returns -ENOMEM then). -/
def init_guest_page_table (map : List Region) :
    Option (Region × List Region × GuestPageTable) :=
  match ivee_map_host_memory map IVEE_PML4_BASE_GPA IVEE_PAGE_TABLE_SIZE false
      ⟨true, true, false⟩ with
  | none => none
  | some (gptMr, map') => some (gptMr, map', buildGuestPageTable map')

/-- Well-formedness of one region: a nonempty gfn range inside the 1 GiB
guest physical window.  `ivee_map_host_memory` establishes this for every
region it creates. -/
def regionWF (mr : Region) : Prop :=
  mr.first_gfn ≤ mr.last_gfn ∧ mr.last_gfn < IVEE_GUEST_PAGES_COUNT

instance (mr : Region) : Decidable (regionWF mr) := by
  unfold regionWF; infer_instance

/-- Well-formedness of a memory map: every region is well-formed and regions
are pairwise non-overlapping (spec §3 invariants, maintained by
`ivee_map_host_memory`). -/
def mapWF (map : List Region) : Prop :=
  (∀ mr ∈ map, regionWF mr) ∧ map.Pairwise (fun a b => regionsOverlap a b = false)

instance (map : List Region) : Decidable (mapWF map) := by
  unfold mapWF; infer_instance

/-! ## x86 boot CPU state (libivee.c lines 164-223) -/

/-- Modelled from the spec: segment-descriptor type and flag encodings are
declared in `x86.h`, which is not in src/.  Their concrete values are never
examined by the code or by any claim; they are modelled as distinct bits. -/
def X86_SEG_TYPE_CODE : Nat := 0x8

def X86_SEG_TYPE_DATA : Nat := 0x2

def X86_SEG_TYPE_ACC : Nat := 0x1

def X86_SEG_TYPE_TSS32 : Nat := 0xB

def X86_SEG_TYPE_LDT : Nat := 0x2

def X86_SEG_S : Nat := 0x1

def X86_SEG_P : Nat := 0x2

def X86_SEG_G : Nat := 0x4

def X86_SEG_L : Nat := 0x8

def X86_SEG_DB : Nat := 0x10

/-- Modelled from the spec (§3): an x86 segment descriptor as carried by
`struct x86_segment` (`x86.h`, not in src/): base, limit, selector, type,
DPL and flags. -/
structure X86Segment where
  base : Nat
  limit : Nat
  selector : Nat
  type : Nat
  dpl : Nat
  flags : Nat
deriving DecidableEq, Repr

/-- Modelled from the spec (§3): `struct x86_cpu_state` (`x86.h`, not in
src/): general-purpose registers, rip, rflags, segment descriptors and
control registers.  Exactly the fields libivee.c reads or writes are kept. -/
structure X86CpuState where
  rax : Nat
  rbx : Nat
  rcx : Nat
  rdx : Nat
  rsi : Nat
  rdi : Nat
  rbp : Nat
  r8 : Nat
  r9 : Nat
  r10 : Nat
  r11 : Nat
  r12 : Nat
  r13 : Nat
  r14 : Nat
  r15 : Nat
  rip : Nat
  rflags : Nat
  cs : X86Segment
  ds : X86Segment
  ss : X86Segment
  es : X86Segment
  fs : X86Segment
  gs : X86Segment
  tr : X86Segment
  ldt : X86Segment
  cr0 : Nat
  cr3 : Nat
  cr4 : Nat
  efer : Nat
deriving DecidableEq, Repr

/-- The all-zero segment, the state of a descriptor after `memset(.., 0, ..)`. -/
def zeroSegment : X86Segment := ⟨0, 0, 0, 0, 0, 0⟩

/-- The all-zero CPU state produced by `memset(x86_cpu, 0, sizeof(*x86_cpu))`
(libivee.c line 191) and by `ivee_zalloc` of the session. -/
def zeroCpu : X86CpuState :=
  { rax := 0, rbx := 0, rcx := 0, rdx := 0, rsi := 0, rdi := 0, rbp := 0
    r8 := 0, r9 := 0, r10 := 0, r11 := 0, r12 := 0, r13 := 0, r14 := 0, r15 := 0
    rip := 0, rflags := 0
    cs := zeroSegment, ds := zeroSegment, ss := zeroSegment, es := zeroSegment
    fs := zeroSegment, gs := zeroSegment, tr := zeroSegment, ldt := zeroSegment
    cr0 := 0, cr3 := 0, cr4 := 0, efer := 0 }

/-- Function `reset_x86_segment` (libivee.c lines 164-176): base and DPL are zeroed,
the other fields are taken from the arguments. -/
def reset_x86_segment (selector : Nat) (limit : Nat) (type : Nat) (flags : Nat) :
    X86Segment :=
  { base := 0, limit := limit, selector := selector, type := type, dpl := 0
    flags := flags }

/-- Function `init_x86_cpu` (libivee.c lines 182-223): zero everything, then set up
rflags, the flat 64-bit segment model and the long-mode control registers. -/
def init_x86_cpu : X86CpuState :=
  { zeroCpu with
    rflags := 0x2
    cs := reset_x86_segment 0x8 0xFFFFFFFF (X86_SEG_TYPE_CODE ||| X86_SEG_TYPE_ACC)
      (X86_SEG_S ||| X86_SEG_P ||| X86_SEG_G ||| X86_SEG_L)
    ds := reset_x86_segment 0x10 0xFFFFFFFF (X86_SEG_TYPE_DATA ||| X86_SEG_TYPE_ACC)
      (X86_SEG_S ||| X86_SEG_P ||| X86_SEG_G ||| X86_SEG_DB)
    ss := reset_x86_segment 0x10 0xFFFFFFFF (X86_SEG_TYPE_DATA ||| X86_SEG_TYPE_ACC)
      (X86_SEG_S ||| X86_SEG_P ||| X86_SEG_G ||| X86_SEG_DB)
    es := reset_x86_segment 0x10 0xFFFFFFFF (X86_SEG_TYPE_DATA ||| X86_SEG_TYPE_ACC)
      (X86_SEG_S ||| X86_SEG_P ||| X86_SEG_G ||| X86_SEG_DB)
    fs := reset_x86_segment 0x10 0xFFFFFFFF (X86_SEG_TYPE_DATA ||| X86_SEG_TYPE_ACC)
      (X86_SEG_S ||| X86_SEG_P ||| X86_SEG_G ||| X86_SEG_DB)
    gs := reset_x86_segment 0x10 0xFFFFFFFF (X86_SEG_TYPE_DATA ||| X86_SEG_TYPE_ACC)
      (X86_SEG_S ||| X86_SEG_P ||| X86_SEG_G ||| X86_SEG_DB)
    tr := reset_x86_segment 0 0 X86_SEG_TYPE_TSS32 X86_SEG_P
    ldt := reset_x86_segment 0 0 X86_SEG_TYPE_LDT X86_SEG_P
    cr0 := 0x80010001
    cr4 := 0x20
    efer := 0x500
    cr3 := IVEE_PML4_BASE_GPA }

/-! ## The VM session (struct ivee, libivee.c lines 16-34) -/

/-- Session state: `struct ivee` as far as the translated code reads or writes it.  The
underlying `struct ivee_kvm_vm*` handle is not a field here; claims about VM
handle ownership use the resource ledger further below. -/
structure IveeSession where
  memory_map : List Region
  x86_cpu : X86CpuState
  entry_addr : Nat
  gpt_mr : Option Region
  should_terminate : Bool
deriving DecidableEq, Repr

/-- A freshly created session: `ivee_zalloc` zero-fills the whole struct and
`ivee_init_memory_map` produces the empty region list. -/
def freshSession : IveeSession :=
  { memory_map := []
    x86_cpu := zeroCpu
    entry_addr := 0
    gpt_mr := none
    should_terminate := false }

/-! ## The executable loaders (libivee.c lines 225-377) -/

/-- Standard ELF constants (from the public ELF64 specification; used by the
gelf-based loader). -/
def ELFCLASS64 : Nat := 2

def ET_EXEC : Nat := 2

def ET_DYN : Nat := 3

def EM_X86_64 : Nat := 62

def PT_LOAD : Nat := 1

def PF_X : Nat := 1

def PF_W : Nat := 2

def PF_R : Nat := 4

/-- One ELF64 program header, with the fields the loader reads. -/
structure ElfPhdr where
  p_type : Nat
  p_flags : Nat
  p_offset : Nat
  p_vaddr : Nat
  p_filesz : Nat
  p_memsz : Nat
deriving DecidableEq, Repr

/-- Modelled from the spec: the on-disk executable as the loader's external
collaborators (stat, open, pread, libelf) present it.  `accessible` is the
result of the `access(file, R_OK | X_OK)` check; `fileSize` is `st.st_size`
and bounds what `pread` can deliver; `isElf` says whether
`elf_kind(elf) == ELF_K_ELF` (the file starts with a valid ELF header);
the remaining fields are the parsed ELF header.  `e_phnum` is the program
header count announced by the header while `phdrs` holds the headers
`gelf_getphdr` can actually deliver, so a list shorter than `e_phnum` models
a truncated program header table. -/
structure GuestFile where
  accessible : Bool
  fileSize : Nat
  isElf : Bool
  elfClass : Nat
  e_type : Nat
  e_machine : Nat
  e_entry : Nat
  e_phnum : Nat
  phdrs : List ElfPhdr
deriving DecidableEq, Repr

/-- Modelled from the spec: the number of bytes `pread(fd, buf, count,
offset)` transfers from a regular file of `fileSize` bytes when no I/O error
occurs: everything up to end-of-file, at most `count`.  A short transfer does
not set `errno` (only a failing syscall does). -/
def preadResult (f : GuestFile) (count offset : Nat) : Nat :=
  min count (f.fileSize - offset)

/-- Modelled from the spec: `elf_errno()` after a genuinely failed libelf
call (such as `gelf_getphdr` on a truncated program header table) is some
nonzero internal error code; its concrete value is internal to libelf. -/
def elfErrno : Int := 1

/-- Function `load_bin` (libivee.c lines 226-264): stat the file, reject empty files,
set the entry point to 0x400000 and map the file contents as a single
readonly READ|EXEC region there.  `stat`/`open` succeed for files that passed
the access check; a failed `stat` makes the function return `stat`'s -1. -/
def load_bin (s : IveeSession) (f : GuestFile) : Int × IveeSession :=
  if !f.accessible then (-1, s)
  else if f.fileSize = 0 then (-EINVAL, s)
  else
    let s1 := { s with entry_addr := 0x400000 }
    match ivee_map_host_memory s1.memory_map 0x400000 f.fileSize true
        ⟨true, false, true⟩ with
    | none => (-ENOMEM, s1)
    | some (_, map') => (0, { s1 with memory_map := map' })

/-- The per-program-header loop of `load_elf64` (libivee.c lines 322-351),
iterating over indices `[0, e_phnum)`.  `errno` is the value of the process
errno at entry; no call in the modelled paths changes it.  The result is
`.ok` with the final map when the loop completes, and `.error` with the
`goto error_out` status and the map accumulated so far otherwise.  Note the
two paths the C code leaves with status 0: a failed `ivee_map_host_memory`
never assigns `res`, and a short `pread` assigns `res = -errno` although a
short read does not set errno. -/
def elfLoadSegments (f : GuestFile) (errno : Nat) :
    List Nat → List Region → Except (Int × List Region) (List Region)
  | [], map => .ok map
  | i :: rest, map =>
    match f.phdrs[i]? with
    | none => .error (-elfErrno, map)
    | some phdr =>
      if phdr.p_type ≠ PT_LOAD then elfLoadSegments f errno rest map
      else
        match ivee_map_host_memory map phdr.p_vaddr phdr.p_memsz false
            ⟨phdr.p_flags &&& PF_R != 0, phdr.p_flags &&& PF_W != 0,
              phdr.p_flags &&& PF_X != 0⟩ with
        | none => .error (0, map)
        | some (_, map') =>
          if preadResult f phdr.p_filesz phdr.p_offset ≠ phdr.p_filesz
          then .error (-(errno : Int), map')
          else elfLoadSegments f errno rest map'

/-- Function `load_elf64` (libivee.c lines 266-365): open the file, validate the ELF
kind, class, type and machine, then load every PT_LOAD program header; on
success record `e_entry` as the entry point.  When `elf_kind` is not
`ELF_K_ELF` the code returns `-elf_errno()`, but no libelf call has failed at
that point, so elf_errno is 0 and the function returns 0 without loading
anything.  The `error_out` label does not drop regions that were already
mapped. -/
def load_elf64 (s : IveeSession) (f : GuestFile) (errno : Nat) : Int × IveeSession :=
  if !f.accessible then (-1, s)
  else if !f.isElf then (0, s)
  else if f.elfClass ≠ ELFCLASS64 then (-ENOTSUP, s)
  else if f.e_type ≠ ET_EXEC ∧ f.e_type ≠ ET_DYN then (-ENOTSUP, s)
  else if f.e_machine ≠ EM_X86_64 then (-ENOTSUP, s)
  else
    match elfLoadSegments f errno (List.range f.e_phnum) s.memory_map with
    | .error (res, map') => (res, { s with memory_map := map' })
    | .ok map' => (0, { s with memory_map := map', entry_addr := f.e_entry })

/-- Function `load_any` (libivee.c lines 367-377): try the ELF64 loader first and fall
back to the flat-binary loader if it reported failure.  The fallback starts
from whatever session state the ELF attempt left behind. -/
def load_any (s : IveeSession) (f : GuestFile) (errno : Nat) : Int × IveeSession :=
  let r := load_elf64 s f errno
  if r.1 = 0 then r else load_bin r.2 f

/-- Modelled from the spec: the numeric values of `ivee_executable_format_t`
are declared in `libivee/libivee.h`, which is not in src/; the switch in
`ivee_load_executable` only compares against the three enumerators, with a
`default` arm for any other value. -/
def IVEE_EXEC_BIN : Nat := 0

def IVEE_EXEC_ELF64 : Nat := 1

def IVEE_EXEC_ANY : Nat := 2

/-- The tail of `ivee_load_executable` after the format switch (libivee.c
lines 410-431), taking the switch result `r` (the loader status and the
session as the loader left it): on loader failure drop the accumulated memory
map; otherwise build the guest page table, install the memory map into KVM
(`ivee_set_kvm_memory_map` is external; `setMapRes` is its result) and
initialize the boot CPU state, dropping the memory map on any failure. -/
def load_finish (r : Int × IveeSession) (setMapRes : Int) : Int × IveeSession :=
  if r.1 ≠ 0 then (r.1, { r.2 with memory_map := ivee_free_memory_map r.2.memory_map })
  else
    match init_guest_page_table r.2.memory_map with
    | none =>
      (-ENOMEM, { r.2 with memory_map := ivee_free_memory_map r.2.memory_map })
    | some (gptMr, map', _) =>
      let s2 := { r.2 with memory_map := map', gpt_mr := some gptMr }
      if setMapRes ≠ 0 then
        (setMapRes, { s2 with memory_map := ivee_free_memory_map s2.memory_map })
      else (0, { s2 with x86_cpu := init_x86_cpu })

/-- Function `ivee_load_executable` (libivee.c lines 379-431) after the null-pointer
checks: check access, dispatch on the format, then run the common tail. -/
def ivee_load_executable_core (s : IveeSession) (f : GuestFile) (format : Nat)
    (errno : Nat) (setMapRes : Int) : Int × IveeSession :=
  if !f.accessible then (-EINVAL, s)
  else
    load_finish
      (if format = IVEE_EXEC_BIN then load_bin s f
       else if format = IVEE_EXEC_ELF64 then load_elf64 s f errno
       else if format = IVEE_EXEC_ANY then load_any s f errno
       else (-ENOTSUP, s))
      setMapRes

/-- Function `ivee_load_executable` including the null-pointer checks on the session
and path arguments (libivee.c lines 383-389). -/
def ivee_load_executable_top (os : Option IveeSession) (of : Option GuestFile)
    (format : Nat) (errno : Nat) (setMapRes : Int) : Int × Option IveeSession :=
  match os, of with
  | none, _ => (-EINVAL, os)
  | some _, none => (-EINVAL, os)
  | some s, some f =>
    let r := ivee_load_executable_core s f format errno setMapRes
    (r.1, some r.2)

/-! ## vCPU state transfer and the run loop (libivee.c lines 433-531) -/

/-- Modelled from the spec (§6): the caller-visible architectural state,
`struct ivee_arch_state` from `libivee/libivee.h` (not in src/): the 15
general-purpose registers rax, rbx, rcx, rdx, rsi, rdi, rbp, r8..r15. -/
structure IveeArchState where
  rax : Nat
  rbx : Nat
  rcx : Nat
  rdx : Nat
  rsi : Nat
  rdi : Nat
  rbp : Nat
  r8 : Nat
  r9 : Nat
  r10 : Nat
  r11 : Nat
  r12 : Nat
  r13 : Nat
  r14 : Nat
  r15 : Nat
deriving DecidableEq, Repr

/-- The register copy performed by `load_vcpu_state` (libivee.c lines
433-454): all 15 caller GPRs go into the CPU image and `rip` is set to the
session's entry address. -/
def load_vcpu_gprs (cpu : X86CpuState) (st : IveeArchState) (entry : Nat) :
    X86CpuState :=
  { cpu with
    rax := st.rax, rbx := st.rbx, rcx := st.rcx, rdx := st.rdx
    rsi := st.rsi, rdi := st.rdi, rbp := st.rbp
    r8 := st.r8, r9 := st.r9, r10 := st.r10, r11 := st.r11
    r12 := st.r12, r13 := st.r13, r14 := st.r14, r15 := st.r15
    rip := entry }

/-- The register copy performed by `store_vcpu_state` (libivee.c lines
456-480) after a successful KVM state read-back: rax, rbx, rcx, rdx, rsi,
rdi and r8..r15 are copied into the caller state.  As in the source, `rbp`
is not copied. -/
def store_vcpu_gprs (st : IveeArchState) (cpu : X86CpuState) : IveeArchState :=
  { st with
    rax := cpu.rax, rbx := cpu.rbx, rcx := cpu.rcx, rdx := cpu.rdx
    rsi := cpu.rsi, rdi := cpu.rdi
    r8 := cpu.r8, r9 := cpu.r9, r10 := cpu.r10, r11 := cpu.r11
    r12 := cpu.r12, r13 := cpu.r13, r14 := cpu.r14, r15 := cpu.r15 }

/-- Modelled from the spec: `IVEE_PIO_EXIT_PORT` is a fixed,
implementation-defined 16-bit port number declared in `libivee/libivee.h`
(not in src/); the code only ever compares a PIO exit's port against it. -/
def IVEE_PIO_EXIT_PORT : Nat := 0xE0E0

/-- Modelled from the spec (§6): an exit record is tagged with a reason —
I/O (with port and data), MMIO, HLT, or an internal error. -/
inductive IveeExitReason where
  | io (port : Nat) (data : Nat)
  | mmio
  | hlt
  | internal_error
deriving DecidableEq, Repr

/-- Function `handle_pio` (libivee.c lines 482-492): a write to the magic exit port
sets `should_terminate` (the data byte is not examined); any other port is
unsupported. -/
def handle_pio (s : IveeSession) (port _data : Nat) : Int × IveeSession :=
  if port = IVEE_PIO_EXIT_PORT then (0, { s with should_terminate := true })
  else (-ENOTSUP, s)

/-- The exit demultiplexer of `ivee_call` (libivee.c lines 516-523): I/O
exits go to `handle_pio`; every other reason is unsupported. -/
def dispatch_exit (s : IveeSession) : IveeExitReason → Int × IveeSession
  | .io port data => handle_pio s port data
  | _ => (-ENOTSUP, s)

/-- The do-while run loop of `ivee_call` (libivee.c lines 509-528).  Each
element of `runs` is one `ivee_kvm_run` outcome (its integer result and the
exit record it filled in); the KVM side is external, so the sequence of
outcomes is an input.  The loop returns the first error (from the run or
from the dispatcher) with the session at that point, or status 0 once
`should_terminate` is observed.  `none` means the supplied outcome list was
exhausted while the guest was still running. -/
def run_loop (s : IveeSession) : List (Int × IveeExitReason) → Option (Int × IveeSession)
  | [] => none
  | (runRes, exit) :: rest =>
    if runRes ≠ 0 then some (runRes, s)
    else
      let r := dispatch_exit s exit
      if r.1 ≠ 0 then some (r.1, r.2)
      else if r.2.should_terminate then some (0, r.2)
      else run_loop r.2 rest

/-- Function `store_vcpu_state` (libivee.c lines 456-480): read the vCPU state back
from KVM (`kvmStoreRes` is `ivee_kvm_store_vcpu_state`'s result and
`postGuest` the CPU image it reports), then copy the GPRs — except rbp — into
the caller state.  On a KVM failure nothing is copied. -/
def store_vcpu_state (s : IveeSession) (st : IveeArchState) (kvmStoreRes : Int)
    (postGuest : X86CpuState) : Int × IveeSession × IveeArchState :=
  if kvmStoreRes ≠ 0 then (kvmStoreRes, s, st)
  else (0, { s with x86_cpu := postGuest }, store_vcpu_gprs st postGuest)

/-- Function `ivee_call` (libivee.c lines 494-531) after the null checks: load the
caller GPRs into the vCPU (`kvmLoadRes` is `ivee_kvm_load_vcpu_state`'s
result), clear `should_terminate`, run the exit loop, and on successful
termination store the state back.  Any error is returned with the caller's
arch state untouched. -/
def ivee_call_core (s : IveeSession) (st : IveeArchState) (kvmLoadRes : Int)
    (runs : List (Int × IveeExitReason)) (kvmStoreRes : Int)
    (postGuest : X86CpuState) : Option (Int × IveeSession × IveeArchState) :=
  let s1 := { s with x86_cpu := load_vcpu_gprs s.x86_cpu st s.entry_addr }
  if kvmLoadRes ≠ 0 then some (kvmLoadRes, s1, st)
  else
    let s2 := { s1 with should_terminate := false }
    match run_loop s2 runs with
    | none => none
    | some (res, s3) =>
      if res ≠ 0 then some (res, s3, st)
      else some (store_vcpu_state s3 st kvmStoreRes postGuest)

/-- The outcome of a public `ivee_call`, including whether the guest was
ever entered (i.e. whether `ivee_kvm_run` was reached). -/
structure CallOutcome where
  status : Int
  session : Option IveeSession
  arch : Option IveeArchState
  entered_guest : Bool
deriving DecidableEq, Repr

/-- Function `ivee_call` including the null-pointer checks (libivee.c lines 498-500).
With a null session or arch-state pointer the call returns -EINVAL at once:
no state is touched and the guest is not entered. -/
def ivee_call_top (os : Option IveeSession) (oa : Option IveeArchState)
    (kvmLoadRes : Int) (runs : List (Int × IveeExitReason)) (kvmStoreRes : Int)
    (postGuest : X86CpuState) : Option CallOutcome :=
  match os, oa with
  | none, _ => some ⟨-EINVAL, os, oa, false⟩
  | some _, none => some ⟨-EINVAL, os, oa, false⟩
  | some s, some a =>
    (ivee_call_core s a kvmLoadRes runs kvmStoreRes postGuest).map
      (fun t => ⟨t.1, some t.2.1, some t.2.2, kvmLoadRes == 0⟩)

/-! ## Session lifecycle and resource ledger (libivee.c lines 42-91) -/

/-- Function `ivee_list_platform_capabilities` (libivee.c lines 36-40). -/
def ivee_list_platform_capabilities : Nat := 0

/-- The resources of a (possibly partially constructed) session that
`ivee_destroy` is responsible for: the KVM VM handle (`ivee->vm`, which may
still be null after a failed create) and the memory map with its host
mappings. -/
structure SessionResources where
  vm : Bool
  memory_map : List Region
deriving DecidableEq, Repr

/-- What a call to `ivee_destroy` released: whether the VM handle was
released, which regions had their host mapping released, and whether the
session allocation itself was freed. -/
structure DestroyEffect where
  vm_released : Bool
  regions_released : List Region
  session_freed : Bool
deriving DecidableEq, Repr

/-- Function `ivee_destroy` (libivee.c lines 83-91): a null session is a no-op;
otherwise the function releases the KVM VM handle (`ivee_release_kvm_vm`,
which per the spec §5 owns and releases the KVM fds and slots, and tolerates
a null handle) and frees the session allocation.  No call releases the
memory map's regions. -/
def ivee_destroy : Option SessionResources → DestroyEffect
  | none => ⟨false, [], false⟩
  | some s => ⟨s.vm, [], true⟩

/-- The observable outcome of `ivee_create`: the returned status, the session
handed back through `out_ivee_ptr`, the effect of the error-path
`ivee_destroy` if it ran, and which resources were acquired along the way. -/
structure CreateResult where
  status : Int
  out_session : Option SessionResources
  destroy_effect : Option DestroyEffect
  session_allocated : Bool
  vm_acquired : Bool
deriving DecidableEq, Repr

/-- Function `ivee_create` (libivee.c lines 42-81): validate the out pointer and the
capability mask, zero-allocate the session, initialize KVM once per process,
create the VM handle, initialize the empty memory map; on any failure after
the allocation, `ivee_destroy` runs on the partial session.  `zallocOk`,
`initKvmRes` and `createVmOk` are the outcomes of the external platform and
KVM calls; `ivee_init_memory_map` only builds the empty list (spec §4.1) and
cannot fail. -/
def ivee_create (outPtrNull : Bool) (caps : Nat) (zallocOk : Bool)
    (initKvmRes : Int) (createVmOk : Bool) : CreateResult :=
  if outPtrNull then ⟨-EINVAL, none, none, false, false⟩
  else if caps &&& ((2 ^ 64 - 1) ^^^ ivee_list_platform_capabilities) ≠ 0 then
    ⟨-ENOTSUP, none, none, false, false⟩
  else if !zallocOk then ⟨-ENOMEM, none, none, false, false⟩
  else if initKvmRes ≠ 0 then
    ⟨initKvmRes, none, some (ivee_destroy (some ⟨false, []⟩)), true, false⟩
  else if !createVmOk then
    ⟨-ENXIO_ERRNO, none, some (ivee_destroy (some ⟨true, []⟩)), true, true⟩
  else ⟨0, some ⟨true, []⟩, none, true, true⟩

/-! ## Concrete fixtures used by witnesses and counterexamples -/

/-- A 4096-byte flat binary (not an ELF file), accessible and executable. -/
def binFile : GuestFile :=
  { accessible := true, fileSize := 4096, isElf := false, elfClass := 0
    e_type := 0, e_machine := 0, e_entry := 0, e_phnum := 0, phdrs := [] }

/-- A LOAD program header: 4 KiB of R+X at guest VA 0x400000, fully backed
by file bytes at offset 0. -/
def elfLoadPhdr : ElfPhdr :=
  { p_type := PT_LOAD, p_flags := PF_R ||| PF_X, p_offset := 0
    p_vaddr := 0x400000, p_filesz := 4096, p_memsz := 4096 }

/-- An ELF64 executable whose header announces two program headers but whose
program header table only delivers one: `gelf_getphdr` fails on index 1 after
the segment of index 0 has already been mapped and loaded. -/
def elfTruncatedFile : GuestFile :=
  { accessible := true, fileSize := 8192, isElf := true, elfClass := ELFCLASS64
    e_type := ET_EXEC, e_machine := EM_X86_64, e_entry := 0x400000
    e_phnum := 2, phdrs := [elfLoadPhdr] }

/-- An ELF64 executable whose sole LOAD program header asks for 8192 file
bytes while the file only has 4096: the `pread` is short (end of file), which
is not a failing syscall and therefore leaves errno untouched. -/
def elfShortReadFile : GuestFile :=
  { accessible := true, fileSize := 4096, isElf := true, elfClass := ELFCLASS64
    e_type := ET_EXEC, e_machine := EM_X86_64, e_entry := 0x400000
    e_phnum := 1
    phdrs := [{ p_type := PT_LOAD, p_flags := PF_R, p_offset := 0
                p_vaddr := 0x400000, p_filesz := 8192, p_memsz := 8192 }] }

/-- A session that has loaded an executable at 0x400000 (only the fields the
call path reads matter). -/
def loadedSession : IveeSession := { freshSession with entry_addr := 0x400000 }

/-- Caller-provided register state with rbp = 5. -/
def archIn : IveeArchState := ⟨0, 0, 0, 0, 0, 0, 5, 0, 0, 0, 0, 0, 0, 0, 0⟩

/-- The post-guest CPU image KVM reports: the guest left 0xDEADBEEF in rax
and 7 in rbp. -/
def postGuestCpu : X86CpuState := { zeroCpu with rax := 0xDEADBEEF, rbp := 7 }

/-- A single successful `ivee_kvm_run` whose exit is a write to the magic
exit port. -/
def exitPortRun : List (Int × IveeExitReason) := [(0, .io IVEE_PIO_EXIT_PORT 0)]

/-- A two-page readonly executable region at gfn 0x400 (guest VA 0x400000). -/
def sampleRegion : Region := ⟨0x400, 0x401, ⟨true, false, true⟩, true⟩

/-! ## General lemmas -/

theorem regionsOverlap_false_iff (a b : Region) :
    regionsOverlap a b = false ↔ b.last_gfn < a.first_gfn ∨ a.last_gfn < b.first_gfn := by
  simp only [regionsOverlap, Bool.and_eq_false_imp, decide_eq_true_eq,
    decide_eq_false_iff_not]
  omega

theorem mem_insertSorted (a mr : Region) (l : List Region) :
    a ∈ insertSorted mr l ↔ a = mr ∨ a ∈ l := by
  induction l with
  | nil => simp [insertSorted]
  | cons r rs ih =>
    simp only [insertSorted]
    split
    · simp [or_comm, or_assoc, or_left_comm]
    · simp only [List.mem_cons, ih]
      tauto

theorem pairwise_insertSorted (mr : Region) (l : List Region)
    (hp : l.Pairwise (fun a b => regionsOverlap a b = false))
    (hmr : ∀ b ∈ l, regionsOverlap mr b = false) :
    (insertSorted mr l).Pairwise (fun a b => regionsOverlap a b = false) := by
  induction l with
  | nil => simp [insertSorted]
  | cons r rs ih =>
    simp only [insertSorted]
    rw [List.pairwise_cons] at hp
    split
    · refine List.Pairwise.cons ?_ (List.Pairwise.cons hp.1 hp.2)
      intro b hb
      exact hmr b hb
    · refine List.Pairwise.cons ?_ (ih hp.2 (fun b hb => hmr b (List.mem_cons_of_mem r hb)))
      intro b hb
      rcases (mem_insertSorted b mr rs).1 hb with h | h
      · subst h
        have := hmr r (List.mem_cons_self r rs)
        rw [regionsOverlap_false_iff] at this ⊢
        omega
      · exact hp.1 b h

theorem pteIndex_eq_of_lt (gfn : Nat) (h : gfn < IVEE_GUEST_PAGES_COUNT) :
    pteIndex gfn = gfn := by
  have hcnt : IVEE_GUEST_PAGES_COUNT = 512 * 512 := by decide
  unfold pteIndex X86_PTES_PER_PAGE
  have h9 : gfn >>> 9 = gfn / 2 ^ 9 := Nat.shiftRight_eq_div_pow gfn 9
  have hm1 : gfn / 2 ^ 9 &&& 0x1FF = gfn / 2 ^ 9 % 2 ^ 9 :=
    Nat.and_pow_two_sub_one_eq_mod (gfn / 2 ^ 9) 9
  have hm2 : gfn &&& 0x1FF = gfn % 2 ^ 9 := Nat.and_pow_two_sub_one_eq_mod gfn 9
  rw [h9, hm1, hm2]
  rw [hcnt] at h
  omega

theorem foldl_update_range (v : Nat → Nat) (first : Nat) (n : Nat)
    (hbnd : first + n ≤ IVEE_GUEST_PAGES_COUNT) (pt : Nat → Nat) (i : Nat) :
    ((List.range n).foldl
        (fun acc k => Function.update acc (pteIndex (first + k)) (v (first + k))) pt) i
      = if first ≤ i ∧ i < first + n then v i else pt i := by
  induction n generalizing pt with
  | zero =>
    simp only [List.range_zero, List.foldl_nil]
    rw [if_neg (by omega)]
  | succ n ih =>
    rw [List.range_succ, List.foldl_append, List.foldl_cons, List.foldl_nil]
    have hidx : pteIndex (first + n) = first + n :=
      pteIndex_eq_of_lt (first + n) (by omega)
    rw [hidx]
    by_cases hi : i = first + n
    · subst hi
      rw [Function.update_same]
      have : first ≤ first + n ∧ first + n < first + (n + 1) := by omega
      rw [if_pos this]
    · rw [Function.update_noteq hi]
      rw [ih (by omega) pt]
      by_cases h1 : first ≤ i ∧ i < first + n
      · rw [if_pos h1, if_pos (by omega)]
      · rw [if_neg h1, if_neg (by omega)]

theorem writeRegionPtes_apply (pt : Nat → Nat) (mr : Region) (hwf : regionWF mr)
    (i : Nat) :
    writeRegionPtes pt mr i =
      if mr.first_gfn ≤ i ∧ i ≤ mr.last_gfn then ptePresentValue mr.prot i else pt i := by
  obtain ⟨h1, h2⟩ := hwf
  unfold writeRegionPtes
  rw [foldl_update_range (ptePresentValue mr.prot) mr.first_gfn
    (mr.last_gfn + 1 - mr.first_gfn) (by omega) pt i]
  by_cases h : mr.first_gfn ≤ i ∧ i ≤ mr.last_gfn
  · rw [if_pos (by omega), if_pos h]
  · rw [if_neg (by omega), if_neg h]

theorem foldl_write_out (regions : List Region) (pt0 : Nat → Nat) (i : Nat)
    (hwf : ∀ mr ∈ regions, regionWF mr)
    (hout : ∀ mr ∈ regions, i < mr.first_gfn ∨ mr.last_gfn < i) :
    (regions.foldl writeRegionPtes pt0) i = pt0 i := by
  induction regions generalizing pt0 with
  | nil => rfl
  | cons r rs ih =>
    rw [List.foldl_cons]
    rw [ih (writeRegionPtes pt0 r)
      (fun mr hm => hwf mr (List.mem_cons_of_mem r hm))
      (fun mr hm => hout mr (List.mem_cons_of_mem r hm))]
    rw [writeRegionPtes_apply pt0 r (hwf r (List.mem_cons_self r rs)) i]
    have := hout r (List.mem_cons_self r rs)
    rw [if_neg (by omega)]

theorem foldl_write_in (regions : List Region) (pt0 : Nat → Nat) (i : Nat)
    (mr : Region) (hwf : ∀ r ∈ regions, regionWF r)
    (hdisj : regions.Pairwise (fun a b => regionsOverlap a b = false))
    (hmem : mr ∈ regions) (h1 : mr.first_gfn ≤ i) (h2 : i ≤ mr.last_gfn) :
    (regions.foldl writeRegionPtes pt0) i = ptePresentValue mr.prot i := by
  induction regions generalizing pt0 with
  | nil => cases hmem
  | cons r rs ih =>
    rw [List.pairwise_cons] at hdisj
    rw [List.foldl_cons]
    rcases List.mem_cons.1 hmem with hm | hm
    · subst hm
      rw [foldl_write_out rs (writeRegionPtes pt0 mr) i
        (fun b hb => hwf b (List.mem_cons_of_mem mr hb))
        (fun b hb => by
          have := hdisj.1 b hb
          rw [regionsOverlap_false_iff] at this
          omega)]
      rw [writeRegionPtes_apply pt0 mr (hwf mr (List.mem_cons_self mr rs)) i]
      rw [if_pos ⟨h1, h2⟩]
    · exact ih (writeRegionPtes pt0 r) (fun b hb => hwf b (List.mem_cons_of_mem r hb))
        hdisj.2 hm

theorem guest_pages_count_eq : IVEE_GUEST_PAGES_COUNT = 2 ^ 18 := by decide

theorem ptePresentValue_bits (prot : IveeProt) (gfn : Nat)
    (h : gfn < IVEE_GUEST_PAGES_COUNT) :
    (ptePresentValue prot gfn).testBit 0 = true ∧
    (ptePresentValue prot gfn).testBit 1 = prot.write ∧
    (ptePresentValue prot gfn).testBit 63 = !prot.exec := by
  have hshift : ∀ j, (gfn <<< X86_PAGE_SHIFT).testBit j =
      (decide (j ≥ 12) && gfn.testBit (j - 12)) := by
    intro j
    exact Nat.testBit_shiftLeft ..
  have h51 : gfn.testBit 51 = false := by
    refine Nat.testBit_eq_false_of_lt ?_
    calc gfn < 2 ^ 18 := guest_pages_count_eq ▸ h
    _ ≤ 2 ^ 51 := Nat.pow_le_pow_right (by omega) (by omega)
  unfold ptePresentValue X86_PTE_RW X86_PTE_NX X86_PTE_PRESENT
  refine ⟨?_, ?_, ?_⟩ <;>
    simp only [Nat.testBit_lor, hshift] <;>
    cases prot.write <;> cases prot.exec <;>
    simp [h51] <;> decide

theorem foldl_update_range_id (v : Nat → Nat) (n : Nat) (pt : Nat → Nat) (i : Nat) :
    ((List.range n).foldl (fun acc k => Function.update acc k (v k)) pt) i
      = if i < n then v i else pt i := by
  induction n generalizing pt with
  | zero =>
    simp only [List.range_zero, List.foldl_nil]
    rw [if_neg (by omega)]
  | succ n ih =>
    rw [List.range_succ, List.foldl_append, List.foldl_cons, List.foldl_nil]
    by_cases hi : i = n
    · subst hi
      rw [Function.update_same, if_pos (by omega)]
    · rw [Function.update_noteq hi, ih pt]
      by_cases h1 : i < n
      · rw [if_pos h1, if_pos (by omega)]
      · rw [if_neg h1, if_neg (by omega)]

theorem map_host_memory_some (map : List Region) (gpa size : Nat) (fb : Bool)
    (prot : IveeProt) (mr : Region) (map' : List Region)
    (h : ivee_map_host_memory map gpa size fb prot = some (mr, map')) :
    mr = ⟨gpa / X86_PAGE_SIZE,
          gpa / X86_PAGE_SIZE + (size + X86_PAGE_SIZE - 1) / X86_PAGE_SIZE - 1,
          prot, fb⟩ ∧
    mr.last_gfn < IVEE_GUEST_PAGES_COUNT ∧
    (∀ b ∈ map, regionsOverlap mr b = false) ∧
    map' = insertSorted mr map := by
  unfold ivee_map_host_memory at h
  split at h
  · cases h
  split at h
  · cases h
  dsimp only at h
  split at h
  · cases h
  split at h
  · cases h
  next hcnt hany =>
    simp only [Option.some.injEq, Prod.mk.injEq] at h
    obtain ⟨hmr, hmap⟩ := h
    subst hmr
    refine ⟨rfl, ?_, ?_, hmap.symm⟩
    · dsimp only at hcnt ⊢
      omega
    intro b hb
    by_contra hover
    apply hany
    refine List.any_eq_true.2 ⟨b, hb, ?_⟩
    cases hq : regionsOverlap _ b
    · exact absurd hq hover
    · rfl

/-- C1: after a successful load, the page-table region built by
`init_guest_page_table` satisfies: for every region in the (final) memory map
and every guest frame number `gfn` in `[first_gfn, last_gfn]`, the PT entry at
index `[(gfn>>9)&0x1FF][gfn&0x1FF]` equals `(gfn<<12)` with PRESENT set, RW
set iff the region's protection includes WRITE, and NX set iff it excludes
EXEC; every PT entry whose gfn lies outside all regions (within the low
1 GiB) is zero; PML4[0] and PDPT[0] are PRESENT pointing at the next level;
and all 512 PD entries are PRESENT and RW. -/
theorem c1_page_table_contents (map : List Region) (hwf : mapWF map)
    (gptMr : Region) (map' : List Region) (gpt : GuestPageTable)
    (h : init_guest_page_table map = some (gptMr, map', gpt)) :
    (∀ mr ∈ map', ∀ gfn, mr.first_gfn ≤ gfn → gfn ≤ mr.last_gfn →
        gpt.pte (pteIndex gfn) = ptePresentValue mr.prot gfn ∧
        (gpt.pte (pteIndex gfn)).testBit 0 = true ∧
        (gpt.pte (pteIndex gfn)).testBit 1 = mr.prot.write ∧
        (gpt.pte (pteIndex gfn)).testBit 63 = !mr.prot.exec) ∧
    (∀ gfn, gfn < IVEE_GUEST_PAGES_COUNT →
        (∀ mr ∈ map', gfn < mr.first_gfn ∨ mr.last_gfn < gfn) →
        gpt.pte (pteIndex gfn) = 0) ∧
    gpt.pml4e 0 = (IVEE_PDPE_BASE_GPA ||| X86_PTE_PRESENT) ∧
    (gpt.pml4e 0).testBit 0 = true ∧
    gpt.pdpte 0 = (IVEE_PDE_BASE_GPA ||| X86_PTE_PRESENT) ∧
    (gpt.pdpte 0).testBit 0 = true ∧
    (∀ i, i < X86_PTES_PER_PAGE →
        gpt.pde i =
          ((IVEE_PTE_BASE_GPA + X86_PAGE_SIZE * i) ||| X86_PTE_PRESENT ||| X86_PTE_RW) ∧
        (gpt.pde i).testBit 0 = true ∧ (gpt.pde i).testBit 1 = true) := by
  unfold init_guest_page_table at h
  cases hmap : ivee_map_host_memory map IVEE_PML4_BASE_GPA IVEE_PAGE_TABLE_SIZE false
      ⟨true, true, false⟩ with
  | none => rw [hmap] at h; cases h
  | some p =>
    obtain ⟨g, m⟩ := p
    rw [hmap] at h
    simp only [Option.some.injEq, Prod.mk.injEq] at h
    obtain ⟨rfl, rfl, rfl⟩ := h
    obtain ⟨hmr_eq, hlast, hnover, hins⟩ := map_host_memory_some _ _ _ _ _ _ _ hmap
    subst hins
    have hgfix : g = (⟨0x3FDFD, 0x3FFFF, ⟨true, true, false⟩, false⟩ : Region) := by
      rw [hmr_eq]; decide
    have hwfall : ∀ r ∈ insertSorted g map, regionWF r := by
      intro r hr
      rcases (mem_insertSorted r g map).1 hr with hq | hq
      · subst hq; rw [hgfix]; decide
      · exact hwf.1 r hq
    have hdisj : (insertSorted g map).Pairwise (fun a b => regionsOverlap a b = false) :=
      pairwise_insertSorted g map hwf.2 hnover
    have hp0 : X86_PTE_PRESENT.testBit 0 = true := by decide
    have hrw1 : X86_PTE_RW.testBit 1 = true := by decide
    refine ⟨?_, ?_, ?_, ?_, ?_, ?_, ?_⟩
    · intro mr hmr gfn h1 h2
      have hwfmr := hwfall mr hmr
      have hlt : gfn < IVEE_GUEST_PAGES_COUNT := lt_of_le_of_lt h2 hwfmr.2
      rw [pteIndex_eq_of_lt gfn hlt]
      have hval : (buildGuestPageTable (insertSorted g map)).pte gfn =
          ptePresentValue mr.prot gfn := by
        dsimp only [buildGuestPageTable]
        exact foldl_write_in _ _ gfn mr hwfall hdisj hmr h1 h2
      obtain ⟨hb0, hb1, hb63⟩ := ptePresentValue_bits mr.prot gfn hlt
      rw [hval]
      exact ⟨rfl, hb0, hb1, hb63⟩
    · intro gfn hlt hout
      rw [pteIndex_eq_of_lt gfn hlt]
      dsimp only [buildGuestPageTable]
      exact foldl_write_out _ _ gfn hwfall hout
    · dsimp only [buildGuestPageTable]
      rw [Function.update_same]
    · dsimp only [buildGuestPageTable]
      rw [Function.update_same]
      decide
    · dsimp only [buildGuestPageTable]
      rw [Function.update_same]
    · dsimp only [buildGuestPageTable]
      rw [Function.update_same]
      decide
    · intro i hi
      dsimp only [buildGuestPageTable]
      rw [foldl_update_range_id
        (fun k => (IVEE_PTE_BASE_GPA + X86_PAGE_SIZE * k) ||| X86_PTE_PRESENT ||| X86_PTE_RW)
        X86_PTES_PER_PAGE (fun _ => 0) i]
      rw [if_pos hi]
      refine ⟨rfl, ?_, ?_⟩
      · simp only [Nat.testBit_lor, hp0, Bool.or_true, Bool.true_or]
      · simp only [Nat.testBit_lor, hrw1, Bool.or_true]

/-- Witness for C1: the page-table characterization applied to the concrete
one-region memory map `[sampleRegion]`. -/
theorem c1_page_table_contents_witness :
    ∃ gptMr map' gpt,
      init_guest_page_table [sampleRegion] = some (gptMr, map', gpt) ∧
      (∀ mr ∈ map', ∀ gfn, mr.first_gfn ≤ gfn → gfn ≤ mr.last_gfn →
          gpt.pte (pteIndex gfn) = ptePresentValue mr.prot gfn) ∧
      gpt.pml4e 0 = (IVEE_PDPE_BASE_GPA ||| X86_PTE_PRESENT) := by
  cases hinit : init_guest_page_table [sampleRegion] with
  | none =>
    have hs : (init_guest_page_table [sampleRegion]).isSome = true := rfl
    rw [hinit] at hs
    cases hs
  | some p =>
    obtain ⟨g, m, t⟩ := p
    have hc := c1_page_table_contents [sampleRegion] (by decide) g m t hinit
    exact ⟨g, m, t, rfl, fun mr hmr gfn h1 h2 => (hc.1 mr hmr gfn h1 h2).1, hc.2.2.1⟩

/-- C7: for every exit record delivered to the run loop, a PIO exit on port
`IVEE_PIO_EXIT_PORT` sets `should_terminate` (the written byte is ignored)
and the exit is consumed successfully (status 0); a PIO exit on any other
port yields -ENOTSUP; and every non-PIO exit reason (MMIO, HLT, internal
error) yields -ENOTSUP, all leaving the rest of the session unchanged. -/
theorem c7_exit_dispatch (s : IveeSession) (port data v1 v2 : Nat) :
    (port = IVEE_PIO_EXIT_PORT →
      dispatch_exit s (.io port data) = (0, { s with should_terminate := true })) ∧
    (port ≠ IVEE_PIO_EXIT_PORT →
      dispatch_exit s (.io port data) = (-ENOTSUP, s)) ∧
    dispatch_exit s (.io port v1) = dispatch_exit s (.io port v2) ∧
    dispatch_exit s .mmio = (-ENOTSUP, s) ∧
    dispatch_exit s .hlt = (-ENOTSUP, s) ∧
    dispatch_exit s .internal_error = (-ENOTSUP, s) := by
  refine ⟨fun h => ?_, fun h => ?_, ?_, rfl, rfl, rfl⟩
  · simp [dispatch_exit, handle_pio, h]
  · simp [dispatch_exit, handle_pio, h]
  · by_cases h : port = IVEE_PIO_EXIT_PORT <;> simp [dispatch_exit, handle_pio, h]

/-- Witness for C7: the dispatcher at the magic port and at port 0x60. -/
theorem c7_exit_dispatch_witness :
    dispatch_exit freshSession (.io 0xE0E0 7) =
      (0, { freshSession with should_terminate := true }) ∧
    dispatch_exit freshSession (.io 0x60 0) = (-ENOTSUP, freshSession) :=
  ⟨(c7_exit_dispatch freshSession 0xE0E0 7 0 0).1 (by decide),
   (c7_exit_dispatch freshSession 0x60 0 0 0).2.1 (by decide)⟩

/-- C10: every public entry point rejects null pointer arguments with -EINVAL
and changes no state: `ivee_create` with a null out-session pointer returns
-EINVAL before allocating anything; `ivee_load_executable` with a null
session or null path returns -EINVAL with the session untouched; and
`ivee_call` with a null session or null arch state returns -EINVAL without
entering the guest and without touching any state. -/
theorem c10_null_argument_checks :
    (∀ caps zallocOk initKvmRes createVmOk,
      ivee_create true caps zallocOk initKvmRes createVmOk =
        ⟨-EINVAL, none, none, false, false⟩) ∧
    (∀ of format errno setMapRes,
      ivee_load_executable_top none of format errno setMapRes = (-EINVAL, none)) ∧
    (∀ s format errno setMapRes,
      ivee_load_executable_top (some s) none format errno setMapRes =
        (-EINVAL, some s)) ∧
    (∀ oa kvmLoadRes runs kvmStoreRes postGuest,
      ivee_call_top none oa kvmLoadRes runs kvmStoreRes postGuest =
        some ⟨-EINVAL, none, oa, false⟩) ∧
    (∀ s kvmLoadRes runs kvmStoreRes postGuest,
      ivee_call_top (some s) none kvmLoadRes runs kvmStoreRes postGuest =
        some ⟨-EINVAL, some s, none, false⟩) :=
  ⟨fun _ _ _ _ => rfl, fun _ _ _ _ => rfl, fun _ _ _ _ => rfl,
   fun _ _ _ _ _ => rfl, fun _ _ _ _ _ => rfl⟩

/-- On the success path of `load_finish` the new CPU image is exactly
`init_x86_cpu`. -/
theorem load_finish_success (r : Int × IveeSession) (setMapRes : Int)
    (s' : IveeSession) (h : load_finish r setMapRes = (0, s')) :
    s'.x86_cpu = init_x86_cpu := by
  unfold load_finish at h
  split at h
  · next hne =>
    injection h with h1 _
    exact absurd h1 hne
  · split at h
    · injection h with h1 _
      exact absurd h1 (by decide)
    · split at h
      · next hne =>
        injection h with h1 _
        exact absurd h1 hne
      · injection h with _ h2
        rw [← h2]

/-- C9: after every successful `ivee_load_executable`, the session's boot CPU
image has rflags = 0x2, cr0 = 0x80010001 (PE|WP|PG), cr4 = 0x20 (PAE),
efer = 0x500 (LMA|LME) and cr3 = IVEE_PML4_BASE_GPA, where
IVEE_PML4_BASE_GPA = 1 GiB - 515·4 KiB = 0x3FDFD000. -/
theorem c9_boot_cpu_state (s : IveeSession) (f : GuestFile) (format errno : Nat)
    (setMapRes : Int) (ret : Int) (s' : IveeSession)
    (h : ivee_load_executable_core s f format errno setMapRes = (ret, s'))
    (hret : ret = 0) :
    s'.x86_cpu.rflags = 0x2 ∧ s'.x86_cpu.cr0 = 0x80010001 ∧
    s'.x86_cpu.cr4 = 0x20 ∧ s'.x86_cpu.efer = 0x500 ∧
    s'.x86_cpu.cr3 = IVEE_PML4_BASE_GPA ∧ IVEE_PML4_BASE_GPA = 0x3FDFD000 := by
  subst hret
  unfold ivee_load_executable_core at h
  split at h
  · injection h with h1 _
    exact absurd h1.symm (by decide)
  · have hcpu := load_finish_success _ _ _ h
    rw [hcpu]
    exact ⟨rfl, rfl, rfl, rfl, rfl, by decide⟩

/-- Witness for C9: a successful flat-binary load of `binFile` into a fresh
session produces exactly the specified control-register state. -/
theorem c9_boot_cpu_state_witness :
    (ivee_load_executable_core freshSession binFile IVEE_EXEC_BIN 0 0).1 = 0 ∧
    (ivee_load_executable_core freshSession binFile IVEE_EXEC_BIN 0 0).2.x86_cpu.rflags = 0x2 ∧
    (ivee_load_executable_core freshSession binFile IVEE_EXEC_BIN 0 0).2.x86_cpu.cr0 = 0x80010001 ∧
    (ivee_load_executable_core freshSession binFile IVEE_EXEC_BIN 0 0).2.x86_cpu.cr4 = 0x20 ∧
    (ivee_load_executable_core freshSession binFile IVEE_EXEC_BIN 0 0).2.x86_cpu.efer = 0x500 ∧
    (ivee_load_executable_core freshSession binFile IVEE_EXEC_BIN 0 0).2.x86_cpu.cr3 = 0x3FDFD000 := by
  have h0 : (ivee_load_executable_core freshSession binFile IVEE_EXEC_BIN 0 0).1 = 0 := rfl
  have hc := c9_boot_cpu_state freshSession binFile IVEE_EXEC_BIN 0 0
    (ivee_load_executable_core freshSession binFile IVEE_EXEC_BIN 0 0).1
    (ivee_load_executable_core freshSession binFile IVEE_EXEC_BIN 0 0).2
    rfl h0
  exact ⟨h0, hc.1, hc.2.1, hc.2.2.1, hc.2.2.2.1, by rw [hc.2.2.2.2.1]; exact hc.2.2.2.2.2⟩

/-- If the run loop returns status 0, the final session has
`should_terminate` set (the loop only leaves with 0 through the
do-while condition). -/
theorem run_loop_zero_terminated (runs : List (Int × IveeExitReason)) :
    ∀ (s : IveeSession) (res : Int) (s' : IveeSession),
      run_loop s runs = some (res, s') → res = 0 → s'.should_terminate = true := by
  induction runs with
  | nil =>
    intro s res s' h
    simp [run_loop] at h
  | cons hd tl ih =>
    intro s res s' h hres
    obtain ⟨runRes, exit⟩ := hd
    simp only [run_loop] at h
    split at h
    · next hne =>
      simp only [Option.some.injEq, Prod.mk.injEq] at h
      exact absurd (h.1.trans hres) hne
    · split at h
      · next hne =>
        simp only [Option.some.injEq, Prod.mk.injEq] at h
        exact absurd (h.1.trans hres) hne
      · split at h
        · next hterm =>
          simp only [Option.some.injEq, Prod.mk.injEq] at h
          rw [← h.2]
          exact hterm
        · exact ih _ _ _ h hres

/-- C6: `ivee_call`'s run loop iterates until either `should_terminate` is
set — in which case the GPRs are stored back into the caller's arch state
(via the source's store path) and the call returns 0 — or an error is
produced (KVM run failure, unsupported exit, or state read-back failure), in
which case the error is returned immediately and the caller's arch state is
completely unchanged. -/
theorem c6_call_error_or_store (s : IveeSession) (st : IveeArchState)
    (kvmLoadRes : Int) (runs : List (Int × IveeExitReason)) (kvmStoreRes : Int)
    (postGuest : X86CpuState) (ret : Int) (s' : IveeSession) (st' : IveeArchState)
    (h : ivee_call_core s st kvmLoadRes runs kvmStoreRes postGuest =
      some (ret, s', st')) :
    (ret = 0 → s'.should_terminate = true ∧ st' = store_vcpu_gprs st postGuest ∧
      s'.x86_cpu = postGuest) ∧
    (ret ≠ 0 → st' = st) := by
  unfold ivee_call_core at h
  split at h
  · next hne =>
    simp only [Option.some.injEq, Prod.mk.injEq] at h
    obtain ⟨h1, _, h3⟩ := h
    exact ⟨fun h0 => absurd (h1.trans h0) hne, fun _ => h3.symm⟩
  · dsimp only at h
    split at h
    · cases h
    · next res3 s3 heq =>
      split at h
      · next hne =>
        simp only [Option.some.injEq, Prod.mk.injEq] at h
        obtain ⟨h1, _, h3⟩ := h
        exact ⟨fun h0 => absurd (h1.trans h0) hne, fun _ => h3.symm⟩
      · next hres0 =>
        have hr0 : res3 = 0 := Decidable.of_not_not hres0
        unfold store_vcpu_state at h
        split at h
        · next hsne =>
          simp only [Option.some.injEq, Prod.mk.injEq] at h
          obtain ⟨h1, _, h3⟩ := h
          exact ⟨fun h0 => absurd (h1.trans h0) hsne, fun _ => h3.symm⟩
        · simp only [Option.some.injEq, Prod.mk.injEq] at h
          obtain ⟨h1, h2, h3⟩ := h
          have hterm := run_loop_zero_terminated runs _ res3 s3 heq hr0
          refine ⟨fun _ => ⟨?_, h3.symm, ?_⟩, fun hne0 => absurd h1.symm hne0⟩
          · rw [← h2]
            exact hterm
          · rw [← h2]

/-- Witness for C6: the loop contract applied to a concrete successful call
(one run, exiting through the magic port). -/
theorem c6_call_error_or_store_witness :
    ∃ ret s' st',
      ivee_call_core loadedSession archIn 0 exitPortRun 0 postGuestCpu =
        some (ret, s', st') ∧
      (ret = 0 → s'.should_terminate = true ∧ st' = store_vcpu_gprs archIn postGuestCpu ∧
        s'.x86_cpu = postGuestCpu) ∧
      (ret ≠ 0 → st' = archIn) := by
  cases hcall : ivee_call_core loadedSession archIn 0 exitPortRun 0 postGuestCpu with
  | none =>
    have hs : (ivee_call_core loadedSession archIn 0 exitPortRun 0 postGuestCpu).isSome
        = true := rfl
    rw [hcall] at hs
    cases hs
  | some t =>
    obtain ⟨ret, s', st'⟩ := t
    exact ⟨ret, s', st', rfl,
      c6_call_error_or_store loadedSession archIn 0 exitPortRun 0 postGuestCpu
        ret s' st' hcall⟩

/-- C2 (evidence of the code bug): at a successful call whose post-guest vCPU
state has rbp = 7, the caller's arch state keeps its input value rbp = 5,
because `store_vcpu_state` omits rbp from the copy-back (libivee.c lines
464-477), while the other GPRs (rax shown) do receive their post-guest
values. -/
theorem c2_rbp_not_stored_back :
    (ivee_call_core loadedSession archIn 0 exitPortRun 0 postGuestCpu).map
        (fun t => (t.1, t.2.2.rbp, t.2.2.rax)) = some (0, 5, 0xDEADBEEF) ∧
    postGuestCpu.rbp = 7 ∧ archIn.rbp = 5 :=
  ⟨rfl, rfl, rfl⟩

/-- C8 (evidence of the code bug): `load_elf64` on an ELF whose sole LOAD
header requests 8192 file bytes of which only 4096 exist.  The pread is short
(end of file), which is not a failing syscall, so errno still holds its value
at entry (0 here) and `res = -errno` makes the function return 0 — success —
instead of a nonzero IO_ERROR, with the entry point never recorded and the
partially loaded region left mapped. -/
theorem c8_short_read_not_an_error :
    preadResult elfShortReadFile 8192 0 ≠ 8192 ∧
    (load_elf64 freshSession elfShortReadFile 0).1 = 0 ∧
    (load_elf64 freshSession elfShortReadFile 0).2.entry_addr = 0 ∧
    (load_elf64 freshSession elfShortReadFile 0).2.memory_map ≠ [] := by
  refine ⟨by decide, rfl, rfl, by decide⟩

/-- C3 (evidence of the code bug): with format AUTO, when the ELF64 attempt
fails after mapping its first LOAD segment (here the program header table is
truncated, so `gelf_getphdr` fails at index 1), the region mapped by the
failed attempt is still in the session's memory map at the moment the
flat-binary fallback starts.  `load_any` hands that polluted session to
`load_bin`, whose own mapping at 0x400000 then collides with the orphaned
region and fails with -ENOMEM. -/
theorem c3_failed_elf_attempt_leaves_region :
    (load_elf64 freshSession elfTruncatedFile 0).1 ≠ 0 ∧
    (load_elf64 freshSession elfTruncatedFile 0).2.memory_map =
      [⟨0x400, 0x400, ⟨true, false, true⟩, false⟩] ∧
    load_any freshSession elfTruncatedFile 0 =
      load_bin (load_elf64 freshSession elfTruncatedFile 0).2 elfTruncatedFile ∧
    (load_any freshSession elfTruncatedFile 0).1 = -ENOMEM := by
  refine ⟨by decide, by decide, rfl, by decide⟩

/-- On every error path of `load_finish` the returned session's memory map
has been freed (it is empty). -/
theorem load_finish_error_map (r : Int × IveeSession) (setMapRes ret : Int)
    (s' : IveeSession) (h : load_finish r setMapRes = (ret, s')) (hret : ret ≠ 0) :
    s'.memory_map = [] := by
  unfold load_finish at h
  split at h
  · injection h with _ h2
    rw [← h2]
    exact rfl
  · split at h
    · injection h with _ h2
      rw [← h2]
      exact rfl
    · split at h
      · injection h with _ h2
        rw [← h2]
        exact rfl
      · injection h with h1 _
        exact absurd h1.symm hret

/-- C5 counterexample: `ivee_load_executable` does not restore the session to
its post-create state on failure.  When the KVM memory-map install fails
(setMapRes = -ENXIO_ERRNO) after a successful flat-binary load, the returned
session keeps entry_addr = 0x400000 and a non-null gpt_mr — both written
during the failed load — although the memory map itself is emptied. -/
theorem c5_fields_retained_on_failure :
    (ivee_load_executable_core freshSession binFile IVEE_EXEC_BIN 0 (-ENXIO_ERRNO)).1 ≠ 0 ∧
    freshSession.entry_addr = 0 ∧ freshSession.gpt_mr = none ∧
    (ivee_load_executable_core freshSession binFile IVEE_EXEC_BIN 0
      (-ENXIO_ERRNO)).2.entry_addr = 0x400000 ∧
    (ivee_load_executable_core freshSession binFile IVEE_EXEC_BIN 0
      (-ENXIO_ERRNO)).2.gpt_mr ≠ none ∧
    (ivee_load_executable_core freshSession binFile IVEE_EXEC_BIN 0
      (-ENXIO_ERRNO)).2.memory_map = [] := by
  refine ⟨by decide, rfl, rfl, rfl, by decide, rfl⟩

/-- C5 (amended): for every post-create session (empty memory map) and every
failure inside `ivee_load_executable` (loader failure, page-table build
failure, or memory-map install failure), before the nonzero status is
returned the partially-built memory map is torn down, so no region remains in
the memory map; the session fields entry_addr and gpt_mr, however, may retain
values written during the failed load. -/
theorem c5_map_torn_down_on_failure (s : IveeSession) (f : GuestFile)
    (format errno : Nat) (setMapRes ret : Int) (s' : IveeSession)
    (hmap0 : s.memory_map = [])
    (h : ivee_load_executable_core s f format errno setMapRes = (ret, s'))
    (hret : ret ≠ 0) :
    s'.memory_map = [] := by
  unfold ivee_load_executable_core at h
  split at h
  · injection h with _ h2
    rw [← h2]
    exact hmap0
  · exact load_finish_error_map _ _ _ _ h hret

/-- Witness for C5 (amended): applied to the concrete failing load of
`c5_fields_retained_on_failure`. -/
theorem c5_map_torn_down_on_failure_witness :
    (ivee_load_executable_core freshSession binFile IVEE_EXEC_BIN 0
      (-ENXIO_ERRNO)).2.memory_map = [] :=
  c5_map_torn_down_on_failure freshSession binFile IVEE_EXEC_BIN 0 (-ENXIO_ERRNO)
    (ivee_load_executable_core freshSession binFile IVEE_EXEC_BIN 0 (-ENXIO_ERRNO)).1
    (ivee_load_executable_core freshSession binFile IVEE_EXEC_BIN 0 (-ENXIO_ERRNO)).2
    rfl rfl (by decide)

/-- C4 counterexample: `ivee_destroy` is claimed to release every region of
the session's memory map; on a session owning one region it releases the VM
handle and frees the session but releases no region's host mapping. -/
theorem c4_destroy_leaks_regions :
    ivee_destroy (some ⟨true, [sampleRegion]⟩) = ⟨true, [], true⟩ ∧
    (⟨true, [sampleRegion]⟩ : SessionResources).memory_map ≠ [] ∧
    sampleRegion ∉ (ivee_destroy (some ⟨true, [sampleRegion]⟩)).regions_released := by
  refine ⟨rfl, by decide, by decide⟩

/-- C4 (amended): `ivee_destroy` releases the VM handle (when one is held)
and frees the session itself, but releases none of the memory map's regions;
`ivee_destroy(null)` is a no-op; and for every failed `ivee_create` that got
as far as allocating the session, the error-path `ivee_destroy` runs on the
partial session, freeing it and releasing the VM handle exactly when it had
been acquired. -/
theorem c4_destroy_behaviour (s : SessionResources) (outPtrNull : Bool)
    (caps : Nat) (zallocOk : Bool) (initKvmRes : Int) (createVmOk : Bool) :
    ivee_destroy none = ⟨false, [], false⟩ ∧
    ivee_destroy (some s) = ⟨s.vm, [], true⟩ ∧
    ((ivee_create outPtrNull caps zallocOk initKvmRes createVmOk).status ≠ 0 →
      (ivee_create outPtrNull caps zallocOk initKvmRes createVmOk).session_allocated →
      ∃ e, (ivee_create outPtrNull caps zallocOk initKvmRes createVmOk).destroy_effect
          = some e ∧
        e.session_freed = true ∧
        e.vm_released =
          (ivee_create outPtrNull caps zallocOk initKvmRes createVmOk).vm_acquired ∧
        e.regions_released = []) := by
  refine ⟨rfl, rfl, ?_⟩
  intro hne halloc
  unfold ivee_create at hne halloc ⊢
  split_ifs at hne halloc ⊢ <;>
    first
      | exact absurd halloc (by decide)
      | exact absurd rfl hne
      | exact ⟨_, rfl, rfl, rfl, rfl⟩

/-- Witness for C4 (amended): the create/destroy contract at a failed create
(KVM initialization fails with -ENXIO_ERRNO after the session allocation). -/
theorem c4_destroy_behaviour_witness :
    ivee_destroy none = ⟨false, [], false⟩ ∧
    ∃ e, (ivee_create false 0 true (-ENXIO_ERRNO) true).destroy_effect = some e ∧
      e.session_freed = true ∧
      e.vm_released = (ivee_create false 0 true (-ENXIO_ERRNO) true).vm_acquired ∧
      e.regions_released = [] :=
  ⟨(c4_destroy_behaviour ⟨true, []⟩ false 0 true (-ENXIO_ERRNO) true).1,
   (c4_destroy_behaviour ⟨true, []⟩ false 0 true (-ENXIO_ERRNO) true).2.2
     (by decide) (by decide)⟩
